import Mathlib

/-!
Shallow embedding of the TCP monitor (src/monitor.py and src/monitor2.py).

Both source variants run one batch cycle: load the target list (hosts.yaml),
load the persisted state mapping (statuses.json), probe each enabled target
with local retries, update its monitoring record through the hysteresis
logic, possibly emit a Telegram notification, drop stale records, and save.

Timestamps (`now_iso()`) are modelled as natural numbers; the `combined`
field (a Python string compared only against "offline" and overwritten with
"online"/"offline") is modelled as a three-valued enum where `unknown`
stands for the empty-string default and any string other than
"online"/"offline".
-/

namespace Monitor

/-- Debounced status stored in the `combined` field. `unknown` models the
`""` default returned by `prev.get("combined", "")` for a missing record
(and any string other than `"online"`/`"offline"`, all of which the code
treats identically: the only comparisons are against `"offline"`). -/
inductive Status where
  | unknown
  | online
  | offline
deriving DecidableEq, Repr

/-- MonitoringRecord: one entry of statuses.json
(initialised at src/monitor.py lines 155-164, src/monitor2.py lines 149-158). -/
structure MRecord where
  name : String
  host : String
  port : Nat
  combined : Status
  consec_fails : Nat
  consec_success : Nat
  offline_since : Option Nat
  last_check : Option Nat
deriving DecidableEq, Repr

/-- Monitoring thresholds (FAIL_THRESHOLD, RECOVERY_THRESHOLD:
src/monitor.py lines 33-34, src/monitor2.py lines 24-25). -/
structure Config where
  failThreshold : Nat
  recoveryThreshold : Nat
deriving DecidableEq, Repr

/-- A notification handed to `send_telegram` (or printed under DRY_RUN).
The payload fields are the record fields interpolated into the message
text at src/monitor.py lines 189-192 and 202-205 (src/monitor2.py
lines 185-188 and 198-201). For the ONLINE message, `downFrom` is the
`rec.get("offline_since")` value the downtime string is computed from. -/
inductive Notif where
  | offlineMsg (name host : String) (port : Nat)
      (offline_since : Option Nat) (consec_fails : Nat)
  | onlineMsg (name host : String) (port : Nat)
      (last_check : Option Nat) (downFrom : Option Nat)
deriving DecidableEq, Repr

/-- Fresh record defaulted for an unseen key
(src/monitor.py lines 155-164, src/monitor2.py lines 149-158):
`combined` is seeded from this cycle's instantaneous reading. -/
def initRecord (name host : String) (port : Nat) (temp : Status) : MRecord :=
  { name := name
    host := host
    port := port
    combined := temp
    consec_fails := 0
    consec_success := 0
    offline_since := none
    last_check := none }

/--
One per-target update of the hysteresis engine: the body of the `for h in
hosts` loop, src/monitor.py lines 146-211 and src/monitor2.py lines 140-207
(the two variants' loop bodies are the same logic line for line; monitor.py
stores `statuses[key] = rec` before the notification block but `rec` is the
same mutable dict, so the stored record still receives the later
`offline_since` clearing).

Inputs: thresholds, the prior record for this key (`statuses.get(key)`),
the target's name/host/port from hosts.yaml, this cycle's raw sample
(`is_online` from `tcp_check_with_retries`), and the current time.
Returns the updated record and the optional notification.
-/
def engineUpdate (cfg : Config) (prevOpt : Option MRecord)
    (name host : String) (port : Nat) (sample : Bool) (now : Nat) :
    MRecord × Option Notif :=
  -- prev_combined = statuses.get(key, {}).get("combined", "")
  let prev_combined : Status :=
    match prevOpt with
    | some r => r.combined
    | none => Status.unknown
  -- temp_combined = "online" if is_online else "offline"
  let temp : Status := if sample then Status.online else Status.offline
  -- rec = statuses.get(key, { ...defaults... })
  let rec0 : MRecord := prevOpt.getD (initRecord name host port temp)
  -- if rec.get("name") != name: rec["name"] = name
  let rec1 : MRecord := { rec0 with name := name }
  -- counters and offline_since
  let rec2 : MRecord :=
    if sample then
      { rec1 with consec_success := rec1.consec_success + 1, consec_fails := 0 }
    else
      let r := { rec1 with consec_fails := rec1.consec_fails + 1, consec_success := 0 }
      if r.offline_since = none then { r with offline_since := some now } else r
  -- rec["combined"] = temp_combined; rec["last_check"] = now_iso()
  let rec3 : MRecord := { rec2 with combined := temp, last_check := some now }
  -- transition to OFFLINE
  let offNotif : Option Notif :=
    if temp = Status.offline ∧ prev_combined ≠ Status.offline then
      if cfg.failThreshold ≤ rec3.consec_fails then
        some (Notif.offlineMsg rec3.name rec3.host rec3.port
          rec3.offline_since rec3.consec_fails)
      else none
    else none
  -- transition to ONLINE (clears offline_since when it fires)
  if temp = Status.online ∧ prev_combined = Status.offline then
    if cfg.recoveryThreshold ≤ rec3.consec_success then
      ({ rec3 with offline_since := none },
        some (Notif.onlineMsg rec3.name rec3.host rec3.port
          rec3.last_check rec3.offline_since))
    else (rec3, offNotif)
  else (rec3, offNotif)

example :
    (engineUpdate ⟨3, 2⟩ none "n" "h" 80 false 10).1.offline_since = some 10 := by
  decide

example :
    (engineUpdate ⟨3, 2⟩
      (some { name := "n", host := "h", port := 80, combined := Status.online,
              consec_fails := 0, consec_success := 5, offline_since := none,
              last_check := some 5 }) "n" "h" 80 false 10).2 = none := by
  decide

example :
    (engineUpdate ⟨1, 2⟩ none "n" "h" 80 false 10).2 =
      some (Notif.offlineMsg "n" "h" 80 (some 10) 1) := by
  decide

/-! ### Prober with retries

`tcp_check_with_retries` (src/monitor.py lines 93-101, src/monitor2.py
lines 85-93, identical): a `for i in range(max(1, retries))` loop that
calls `tcp_once`, returns True immediately on success, and otherwise
records `last = ok` (always False there) and sleeps RETRY_DELAY_SEC before
the next iteration; after the loop it returns `last`.

The underlying transport is abstracted as `outcomes : Nat → Bool`, the
result of the i-th `tcp_once` call of this invocation. Besides the boolean
result we track the number of `tcp_once` attempts made and the number of
`time.sleep(RETRY_DELAY_SEC)` calls executed, so that the retry/delay
claims are statable. -/

/-- The loop body of `tcp_check_with_retries` with `fuel` iterations left:
returns (result, attempts made, sleeps executed). The Python loop sleeps
after every failed attempt (the `time.sleep` is the last statement of the
loop body, also on the final iteration). -/
def checkLoop (outcomes : Nat → Bool) : Nat → Bool × Nat × Nat
  | 0 => (false, 0, 0)
  | fuel + 1 =>
    if outcomes 0 then (true, 1, 0)
    else
      let r := checkLoop (fun j => outcomes (j + 1)) fuel
      (r.1, r.2.1 + 1, r.2.2 + 1)

/-- `tcp_check_with_retries(host, port, retries)`: the transport is
abstracted into `outcomes`; host and port only select the endpoint probed
and are dropped. `range(max(1, retries))` gives `(max 1 retries).toNat`
iterations (retries is an int from the environment). -/
def tcp_check_with_retries (outcomes : Nat → Bool) (retries : Int) :
    Bool × Nat × Nat :=
  checkLoop outcomes (max 1 retries).toNat

example : tcp_check_with_retries (fun i => i = 2) 3 = (true, 3, 2) := by decide

example : tcp_check_with_retries (fun _ => false) 2 = (false, 2, 2) := by decide

example : tcp_check_with_retries (fun _ => false) (-7) = (false, 1, 1) := by decide

/-! ### The cycle

The state mapping loaded from statuses.json is modelled as an association
list in insertion order (Python dicts preserve insertion order); `main`
iterates the loaded hosts, updates each record through the engine, then
deletes every key not derived from the current host list, and saves
(src/monitor.py lines 135-227, src/monitor2.py lines 127-225). -/

/-- A target normalised by `load_hosts`: `{"name": ..., "host": ..., "port": ...}`. -/
structure Target where
  name : String
  host : String
  port : Nat
deriving DecidableEq, Repr

/-- `key = f"{host}:{port}"` (src/monitor.py line 144, src/monitor2.py line 138). -/
def hostKey (h : Target) : String := h.host ++ ":" ++ toString h.port

/-- The persisted state mapping. -/
def StateMap : Type := List (String × MRecord)

/-- `statuses.get(key)`: first binding of the key, if any. -/
def lookupS (m : List (String × MRecord)) (k : String) : Option MRecord :=
  match m with
  | [] => none
  | (k', v) :: t => if k' = k then some v else lookupS t k

/-- `statuses[key] = rec`: overwrite in place, or append a new binding. -/
def insertS (m : List (String × MRecord)) (k : String) (v : MRecord) :
    List (String × MRecord) :=
  match m with
  | [] => [(k, v)]
  | (k', v') :: t => if k' = k then (k, v) :: t else (k', v') :: insertS t k v

/-- The `for h in hosts` loop of `main`: per target, read the prior record,
probe (`samples` gives this cycle's raw reading per key), run the engine
update, store the record back, and append any emitted notification. -/
def processHosts (cfg : Config) (samples : String → Bool) (now : Nat) :
    List Target → List (String × MRecord) × List Notif →
    List (String × MRecord) × List Notif
  | [], acc => acc
  | h :: t, (m, ns) =>
    let key := hostKey h
    let r := engineUpdate cfg (lookupS m key) h.name h.host h.port (samples key) now
    processHosts cfg samples now t (insertS m key r.1, ns ++ r.2.toList)

/-- One full cycle over the in-memory state: process every loaded host,
then delete from the mapping every key not among the current hosts' keys
(src/monitor.py lines 216-222, src/monitor2.py lines 215-220), yielding
the mapping passed to `save_statuses` and the notifications sent. -/
def runCycle (cfg : Config) (samples : String → Bool) (now : Nat)
    (hosts : List Target) (statuses : List (String × MRecord)) :
    List (String × MRecord) × List Notif :=
  let step := processHosts cfg samples now hosts (statuses, [])
  let currentKeys := hosts.map hostKey
  (step.1.filter (fun p => decide (p.1 ∈ currentKeys)), step.2)

example :
    (runCycle ⟨3, 2⟩ (fun _ => true) 7 [⟨"a", "h1", 22⟩]
      [("h9:1", initRecord "x" "h9" 1 Status.online)]).1.map Prod.fst =
      ["h1:22"] := by decide

/-! ### Loading hosts.yaml

Each hosts.yaml entry is a YAML mapping; the values the code inspects are
booleans, integers, strings or null, modelled by `PyVal`; an entry is a
`PyDict` (association list keyed by field name). -/

/-- A Python value as it comes out of `yaml.safe_load` for the fields the
loader touches. -/
inductive PyVal where
  | bool (b : Bool)
  | int (n : Int)
  | str (s : String)
  | none
deriving DecidableEq, Repr

/-- Python truthiness of a `PyVal` (`if not enabled`, `or` defaults). -/
def pyTruthy : PyVal → Bool
  | .bool b => b
  | .int n => n ≠ 0
  | .str s => s ≠ ""
  | .none => false

/-- Python `==` restricted to `PyVal`: numeric cross-type equality makes
`False == 0` and `True == 1`; strings compare by content; `None` equals
only `None`; a string never equals a number. -/
def pyEq : PyVal → PyVal → Bool
  | .bool a, .bool b => a = b
  | .bool a, .int n => (if a then (1 : Int) else 0) = n
  | .int n, .bool a => n = (if a then (1 : Int) else 0)
  | .int m, .int n => m = n
  | .str s, .str t => s = t
  | .none, .none => true
  | _, _ => false

/-- `str(v)` / f-string interpolation of a value. -/
def pyStr : PyVal → String
  | .bool b => if b then "True" else "False"
  | .int n => toString n
  | .str s => s
  | .none => "None"

/-- `int(v)`: `none` when the conversion raises (e.g. a non-numeric
string or `int(None)`). -/
def pyToInt : PyVal → Option Int
  | .bool b => some (if b then 1 else 0)
  | .int n => some n
  | .str s => s.toInt?
  | .none => Option.none

/-- A YAML mapping entry of hosts.yaml. -/
def PyDict : Type := List (String × PyVal)

/-- `item.get(k)`: the bound value, or Python `None` when the key is absent. -/
def dget (d : List (String × PyVal)) (k : String) : Option PyVal :=
  match d with
  | [] => Option.none
  | (k', v) :: t => if k' = k then some v else dget t k

/-- `s.lower()` (modelled character-wise; the strings compared against are
ASCII). -/
def pyLower (s : String) : String := String.mk (s.data.map Char.toLower)

/-- src/monitor.py lines 58-61: `enabled = item.get("enabled", True);
if isinstance(enabled, str): enabled = enabled.lower() not in
("false", "0", "no")`; the item is kept iff the result is truthy. -/
def enabledCheck1 (item : List (String × PyVal)) : Bool :=
  match (dget item "enabled").getD (.bool true) with
  | .str s => !(pyLower s == "false" || pyLower s == "0" || pyLower s == "no")
  | v => pyTruthy v

/-- src/monitor2.py line 48: the item is skipped iff `"enabled" in item and
item.get("enabled") in (False, "false", "no", 0)` (Python `in` tests `==`
against each tuple element). -/
def enabledCheck2 (item : List (String × PyVal)) : Bool :=
  !(match dget item "enabled" with
    | some v =>
      pyEq v (.bool false) || pyEq v (.str "false") ||
        pyEq v (.str "no") || pyEq v (.int 0)
    | Option.none => false)

/-- `name = item.get("name") or f"{item.get('host')}:{item.get('port')}"`,
then `str(name)` (src/monitor.py line 63, src/monitor2.py line 51; the
f-string uses the raw, pre-default field values). -/
def nameField (item : List (String × PyVal)) : String :=
  let raw := (dget item "name").getD .none
  if pyTruthy raw then pyStr raw
  else pyStr ((dget item "host").getD .none) ++ ":" ++
    pyStr ((dget item "port").getD .none)

/-- `port = int(item.get("port") or 3389)` (src/monitor.py line 65,
src/monitor2.py line 53); `none` when `int(...)` raises. -/
def portField (item : List (String × PyVal)) : Option Int :=
  let raw := (dget item "port").getD .none
  pyToInt (if pyTruthy raw then raw else .int 3389)

/-- `host = item.get("host")`, later `str(host)` in the output dict. -/
def hostField (item : List (String × PyVal)) : String :=
  pyStr ((dget item "host").getD .none)

/-- Normalisation of one hosts.yaml item by src/monitor.py lines 56-66:
`.ok Option.none` when the item is skipped (`if not item: continue`, or
disabled), `.error ()` when `int(...)` raises out of the loop. -/
def processItem1 (item : List (String × PyVal)) : Except Unit (Option Target) :=
  if item.isEmpty then .ok Option.none
  else if !enabledCheck1 item then .ok Option.none
  else
    match portField item with
    | some p => .ok (some ⟨nameField item, hostField item, p.toNat⟩)
    | Option.none => .error ()

/-- Normalisation of one item by src/monitor2.py lines 45-54: same as
`processItem1` but with monitor2's enabled test. -/
def processItem2 (item : List (String × PyVal)) : Except Unit (Option Target) :=
  if item.isEmpty then .ok Option.none
  else if !enabledCheck2 item then .ok Option.none
  else
    match portField item with
    | some p => .ok (some ⟨nameField item, hostField item, p.toNat⟩)
    | Option.none => .error ()

/-- The `for item in data` accumulation: an exception at any item aborts
the whole loop. -/
def buildTargets (f : List (String × PyVal) → Except Unit (Option Target)) :
    List (List (String × PyVal)) → Except Unit (List Target)
  | [] => .ok []
  | i :: t => do
    let r ← f i
    let rest ← buildTargets f t
    pure (match r with | some x => x :: rest | Option.none => rest)

/-- Abstract content of a file as its loader sees it: absent on disk,
present but failing to parse, or successfully parsed to `α`. -/
inductive FileState (α : Type) where
  | absent
  | corrupt
  | parsed (data : α)

/-- src/monitor.py `load_hosts` (lines 45-67): missing file or missing
pyyaml give `[]`; a parse failure of `yaml.safe_load` is NOT caught and
propagates (`.error ()`); otherwise each item is normalised (an `int(...)`
error also propagates). `yaml.safe_load(f) or []` makes empty/null data
`[]`. -/
def load_hosts1 (yamlOk : Bool) (f : FileState (List (List (String × PyVal)))) :
    Except Unit (List Target) :=
  match f with
  | .absent => .ok []
  | .corrupt => if yamlOk then .error () else .ok []
  | .parsed data => if yamlOk then buildTargets processItem1 data else .ok []

/-- src/monitor2.py `load_hosts` (lines 35-59): missing file or missing
pyyaml give `[]`; the whole parse-and-normalise is wrapped in
`try/except` returning `[]`, and non-list data falls through to the final
`return []`. -/
def load_hosts2 (yamlOk : Bool) (f : FileState (List (List (String × PyVal)))) :
    List Target :=
  if !yamlOk then []
  else
    match f with
    | .absent => []
    | .corrupt => []
    | .parsed data =>
      match buildTargets processItem2 data with
      | .ok out => out
      | .error _ => []

/-- `load_statuses` (src/monitor.py lines 69-77, src/monitor2.py lines
61-69, identical): missing file gives `{}`; a JSON parse failure is caught,
a warning is printed and `{}` is returned. The Bool records whether the
warning was printed. -/
def load_statuses (f : FileState (List (String × MRecord))) :
    List (String × MRecord) × Bool :=
  match f with
  | .absent => ([], false)
  | .corrupt => ([], true)
  | .parsed m => (m, false)

example : load_hosts1 true (.parsed [[("host", .str "a")], []]) =
    .ok [⟨"a:None", "a", 3389⟩] := rfl

example : load_hosts2 true (.parsed [[("host", .str "a"), ("enabled", .str "0")],
    [("host", .str "b"), ("enabled", .str "no")]]) =
    [⟨"a:None", "a", 3389⟩] := rfl

example : enabledCheck1 [("enabled", .str "0")] = false := rfl

/-! ## Concrete records used by the evaluation theorems -/

/-- A record confirmed online (e.g. after a run of successes). -/
def recOnline : MRecord :=
  { name := "srv", host := "10.0.0.1", port := 3389, combined := Status.online,
    consec_fails := 0, consec_success := 4, offline_since := none,
    last_check := some 90 }

/-- A record confirmed offline since time 50. -/
def recOffline : MRecord :=
  { name := "srv", host := "10.0.0.1", port := 3389, combined := Status.offline,
    consec_fails := 5, consec_success := 0, offline_since := some 50,
    last_check := some 90 }

/-! ## Claims -/

/-- C10: after every per-target update, the stored record's `combined`
field equals the instantaneous reading of this cycle's probe — `online`
iff the raw sample was true — for every prior record and all thresholds.
`rec["combined"] = temp_combined` is executed unconditionally
(src/monitor.py line 181, src/monitor2.py line 175), and the ONLINE
branch only ever clears `offline_since`, so the persisted combined
status tracks the raw sample unconditionally in both variants. -/
theorem combined_tracks_raw_sample (cfg : Config) (prevOpt : Option MRecord)
    (name host : String) (port : Nat) (sample : Bool) (now : Nat) :
    (engineUpdate cfg prevOpt name host port sample now).1.combined =
      (if sample then Status.online else Status.offline) := by
  unfold engineUpdate
  cases sample
  · simp
  · simp
    split_ifs <;> rfl

/-- C1 (code bug): one engine update is supposed to change `combined` only
once the matching threshold is reached, but the code overwrites `combined`
with the instantaneous reading every cycle. At `failThreshold = 3`, a
single failing sample against an online record flips `combined` to
offline with `consec_fails = 1 < 3`. -/
theorem combined_flips_below_threshold :
    (engineUpdate ⟨3, 2⟩ (some recOnline) "srv" "10.0.0.1" 3389 false 100).1.combined
        = Status.offline ∧
      recOnline.combined = Status.online ∧
      (engineUpdate ⟨3, 2⟩ (some recOnline) "srv" "10.0.0.1" 3389 false 100).1.consec_fails
        = 1 ∧
      (1 : Nat) < 3 := by
  decide

/-- C2 (code bug): with `failThreshold = 3`, three consecutive failing
samples against an online record are supposed to produce exactly one
OFFLINE notification, on the 3rd failure. Because `combined` is
overwritten with the raw reading every cycle, `prev_combined` is already
"offline" from the 2nd failing cycle on, so the transition guard
`prev_combined != "offline"` and the threshold guard
`consec_fails >= 3` are never true together: no notification fires on
any of the three cycles, even though `consec_fails` reaches 3. -/
theorem no_offline_notification_after_three_fails :
    (engineUpdate ⟨3, 2⟩ (some recOnline) "srv" "10.0.0.1" 3389 false 100).2 = none ∧
      (engineUpdate ⟨3, 2⟩
        (some (engineUpdate ⟨3, 2⟩ (some recOnline)
          "srv" "10.0.0.1" 3389 false 100).1)
        "srv" "10.0.0.1" 3389 false 200).2 = none ∧
      (engineUpdate ⟨3, 2⟩
        (some (engineUpdate ⟨3, 2⟩
          (some (engineUpdate ⟨3, 2⟩ (some recOnline)
            "srv" "10.0.0.1" 3389 false 100).1)
          "srv" "10.0.0.1" 3389 false 200).1)
        "srv" "10.0.0.1" 3389 false 300).2 = none ∧
      (engineUpdate ⟨3, 2⟩
        (some (engineUpdate ⟨3, 2⟩
          (some (engineUpdate ⟨3, 2⟩ (some recOnline)
            "srv" "10.0.0.1" 3389 false 100).1)
          "srv" "10.0.0.1" 3389 false 200).1)
        "srv" "10.0.0.1" 3389 false 300).1.consec_fails = 3 := by
  decide

/-- C3 (code bug): with `recoveryThreshold = 2`, two consecutive
successful samples against a record offline since time 50 are supposed to
produce exactly one ONLINE notification (downtime from 50) and leave
`offline_since` unset. Because `combined` is overwritten with the raw
reading every cycle, `prev_combined` is already "online" on the 2nd
successful cycle, so the guard `prev_combined == "offline"` and the
threshold `consec_success >= 2` are never true together: no notification
fires and `offline_since` is never cleared. -/
theorem no_online_notification_after_recovery :
    (engineUpdate ⟨3, 2⟩ (some recOffline) "srv" "10.0.0.1" 3389 true 100).2 = none ∧
      (engineUpdate ⟨3, 2⟩
        (some (engineUpdate ⟨3, 2⟩ (some recOffline)
          "srv" "10.0.0.1" 3389 true 100).1)
        "srv" "10.0.0.1" 3389 true 200).2 = none ∧
      (engineUpdate ⟨3, 2⟩
        (some (engineUpdate ⟨3, 2⟩ (some recOffline)
          "srv" "10.0.0.1" 3389 true 100).1)
        "srv" "10.0.0.1" 3389 true 200).1.offline_since = some 50 ∧
      (engineUpdate ⟨3, 2⟩
        (some (engineUpdate ⟨3, 2⟩ (some recOffline)
          "srv" "10.0.0.1" 3389 true 100).1)
        "srv" "10.0.0.1" 3389 true 200).1.consec_success = 2 := by
  decide

/-- C4 (code bug): `offline_since` is supposed to be cleared in the update
in which the confirmed ONLINE transition fires and set afresh on the first
failing sample of each failing streak. With `recoveryThreshold = 2`, a
record offline since 50 sampled [true@100, true@200, false@300]: the
recovery is confirmed on the 2nd success per the claim, but the code never
fires the ONLINE transition (the guard and the threshold are never true
together), so `offline_since` is still 50 after both successes, and on the first
failing sample of the new streak it is left at the stale 50 instead of
being set to 300. -/
theorem offline_since_stale_across_streaks :
    (engineUpdate ⟨3, 2⟩
      (some (engineUpdate ⟨3, 2⟩
        (some (engineUpdate ⟨3, 2⟩ (some recOffline)
          "srv" "10.0.0.1" 3389 true 100).1)
        "srv" "10.0.0.1" 3389 true 200).1)
      "srv" "10.0.0.1" 3389 false 300).1.offline_since = some 50 ∧
      (engineUpdate ⟨3, 2⟩
        (some (engineUpdate ⟨3, 2⟩ (some recOffline)
          "srv" "10.0.0.1" 3389 true 100).1)
        "srv" "10.0.0.1" 3389 true 200).1.offline_since = some 50 := by
  decide

/-- C5 (counterexample): the claim says the first cycle of an unseen
target never notifies, for all thresholds `failThreshold ≥ 1`. With
`failThreshold = 1` and a failing first sample, the defaulted record gets
`consec_fails = 1 ≥ 1`, and `prev_combined` is the empty default, so the
OFFLINE notification fires on the very first cycle. -/
theorem first_cycle_alert_at_threshold_one :
    (engineUpdate ⟨1, 2⟩ none "srv" "10.0.0.1" 3389 false 100).2 =
      some (Notif.offlineMsg "srv" "10.0.0.1" 3389 (some 100) 1) := by
  decide

/-- C5 (amended): for every unseen target key and ALL thresholds, the
first cycle seeds `combined` directly to the instantaneous state of the
first raw sample; an online first sample never notifies for any
thresholds (the ONLINE guard needs `prev_combined == "offline"`, but the
prior combined is the empty default); and whenever `failThreshold ≥ 2`
no notification is emitted for either first sample (only the degenerate
`failThreshold = 1` with a failing first sample alerts). -/
theorem first_cycle_seeds_without_notification (cfg : Config)
    (name host : String) (port : Nat) (sample : Bool) (now : Nat) :
    (engineUpdate cfg none name host port sample now).1.combined =
        (if sample then Status.online else Status.offline) ∧
      (engineUpdate cfg none name host port true now).2 = none ∧
      (2 ≤ cfg.failThreshold →
        (engineUpdate cfg none name host port sample now).2 = none) := by
  refine ⟨?_, ?_, ?_⟩
  · unfold engineUpdate initRecord
    cases sample
    · simp
    · simp
  · unfold engineUpdate initRecord
    simp
  · intro hft
    unfold engineUpdate initRecord
    cases sample
    · simp
      omega
    · simp

/-- Witness for `first_cycle_seeds_without_notification` at
`failThreshold = 2`: a failing first sample seeds offline, an online
first sample does not notify, and neither sample notifies. -/
theorem first_cycle_seeds_without_notification_witness :
    (engineUpdate ⟨2, 2⟩ none "srv" "10.0.0.1" 3389 false 100).1.combined =
        Status.offline ∧
      (engineUpdate ⟨2, 2⟩ none "srv" "10.0.0.1" 3389 true 100).2 = none ∧
      (engineUpdate ⟨2, 2⟩ none "srv" "10.0.0.1" 3389 false 100).2 = none := by
  have h := first_cycle_seeds_without_notification ⟨2, 2⟩
    "srv" "10.0.0.1" 3389 false 100
  exact ⟨by simpa using h.1, h.2.1, h.2.2 (by decide)⟩

/-! ## C6: the prober's retry loop -/

/-- The loop result is true iff some attempt within the fuel succeeds. -/
theorem checkLoop_true_iff (n : Nat) :
    ∀ outcomes : Nat → Bool,
      (checkLoop outcomes n).1 = true ↔ ∃ i, i < n ∧ outcomes i = true := by
  induction n with
  | zero => intro outcomes; simp [checkLoop]
  | succ n ih =>
    intro outcomes
    by_cases h0 : outcomes 0 = true
    · constructor
      · intro _
        exact ⟨0, Nat.succ_pos n, h0⟩
      · intro _
        simp [checkLoop, h0]
    · simp only [checkLoop, if_neg h0]
      rw [show ((checkLoop (fun j => outcomes (j + 1)) n).1,
        (checkLoop (fun j => outcomes (j + 1)) n).2.1 + 1,
        (checkLoop (fun j => outcomes (j + 1)) n).2.2 + 1).1 =
          (checkLoop (fun j => outcomes (j + 1)) n).1 from rfl]
      rw [ih (fun j => outcomes (j + 1))]
      constructor
      · rintro ⟨j, hj, hout⟩
        exact ⟨j + 1, Nat.succ_lt_succ hj, hout⟩
      · rintro ⟨i, hi, hout⟩
        cases i with
        | zero => exact absurd hout h0
        | succ j => exact ⟨j, Nat.lt_of_succ_lt_succ hi, hout⟩

/-- When the fuel is positive, at least one attempt is made. -/
theorem checkLoop_attempts_pos (n : Nat) (outcomes : Nat → Bool) (h : 1 ≤ n) :
    1 ≤ (checkLoop outcomes n).2.1 := by
  rcases n with _ | n
  · omega
  · by_cases h0 : outcomes 0 = true
    · simp [checkLoop, h0]
    · simp only [checkLoop, if_neg h0]
      omega

/-- When the loop returns false, it has made exactly `fuel` attempts, all
of which failed. -/
theorem checkLoop_false (n : Nat) :
    ∀ outcomes : Nat → Bool, (checkLoop outcomes n).1 = false →
      (checkLoop outcomes n).2.1 = n ∧ ∀ j, j < n → outcomes j = false := by
  induction n with
  | zero => intro outcomes _; exact ⟨rfl, fun j hj => absurd hj (Nat.not_lt_zero j)⟩
  | succ n ih =>
    intro outcomes hres
    by_cases h0 : outcomes 0 = true
    · simp [checkLoop, if_pos h0] at hres
    · simp only [checkLoop, if_neg h0] at hres ⊢
      obtain ⟨hatt, hall⟩ := ih (fun j => outcomes (j + 1)) hres
      refine ⟨by omega, fun j hj => ?_⟩
      cases j with
      | zero => simpa using h0
      | succ i => exact hall i (Nat.lt_of_succ_lt_succ hj)

/-- When the loop returns true, the last attempt made is the first
successful one: all earlier attempts failed. -/
theorem checkLoop_first_success (n : Nat) :
    ∀ outcomes : Nat → Bool, (checkLoop outcomes n).1 = true →
      outcomes ((checkLoop outcomes n).2.1 - 1) = true ∧
        ∀ j, j < (checkLoop outcomes n).2.1 - 1 → outcomes j = false := by
  induction n with
  | zero => intro outcomes h; simp [checkLoop] at h
  | succ n ih =>
    intro outcomes hres
    by_cases h0 : outcomes 0 = true
    · simp only [checkLoop, if_pos h0]
      exact ⟨h0, fun j hj => absurd hj (by omega)⟩
    · simp only [checkLoop, if_neg h0] at hres ⊢
      obtain ⟨hfirst, hall⟩ := ih (fun j => outcomes (j + 1)) hres
      have hn1 : 1 ≤ n := by
        rcases n with _ | n
        · simp [checkLoop] at hres
        · omega
      have hpos : 1 ≤ (checkLoop (fun j => outcomes (j + 1)) n).2.1 :=
        checkLoop_attempts_pos n _ hn1
      refine ⟨?_, fun j hj => ?_⟩
      · have heq : (checkLoop (fun j => outcomes (j + 1)) n).2.1 + 1 - 1 - 1 =
            (checkLoop (fun j => outcomes (j + 1)) n).2.1 - 1 + 1 - 1 + 0 := by omega
        have := hfirst
        simp only [Nat.add_sub_cancel]
        have h2 : (checkLoop (fun j => outcomes (j + 1)) n).2.1 =
            ((checkLoop (fun j => outcomes (j + 1)) n).2.1 - 1) + 1 := by omega
        rw [h2]
        simpa using hfirst
      · cases j with
        | zero => simpa using h0
        | succ i => exact hall i (by omega)

/-- Attempts made never exceed the fuel. -/
theorem checkLoop_attempts_le (n : Nat) :
    ∀ outcomes : Nat → Bool, (checkLoop outcomes n).2.1 ≤ n := by
  induction n with
  | zero => intro outcomes; exact Nat.le_refl 0
  | succ n ih =>
    intro outcomes
    by_cases h0 : outcomes 0 = true
    · simp [checkLoop, if_pos h0]
    · simp only [checkLoop, if_neg h0]
      exact Nat.succ_le_succ (ih _)

/-- The loop sleeps after every failed attempt: when it succeeds the
sleeps are one fewer than the attempts, when it fails they are equal
(in particular there IS a sleep after the last attempt of an
all-failures run). -/
theorem checkLoop_sleeps (n : Nat) :
    ∀ outcomes : Nat → Bool,
      (checkLoop outcomes n).2.2 =
        (if (checkLoop outcomes n).1 then (checkLoop outcomes n).2.1 - 1
         else (checkLoop outcomes n).2.1) := by
  induction n with
  | zero => intro outcomes; simp [checkLoop]
  | succ n ih =>
    intro outcomes
    by_cases h0 : outcomes 0 = true
    · simp [checkLoop, if_pos h0]
    · simp only [checkLoop, if_neg h0]
      rw [ih (fun j => outcomes (j + 1))]
      by_cases hr : (checkLoop (fun j => outcomes (j + 1)) n).1 = true
      · have hn1 : 1 ≤ n := by
          rcases n with _ | n
          · simp [checkLoop] at hr
          · omega
        have hpos : 1 ≤ (checkLoop (fun j => outcomes (j + 1)) n).2.1 :=
          checkLoop_attempts_pos n _ hn1
        simp only [hr, if_true]
        omega
      · have hrf : (checkLoop (fun j => outcomes (j + 1)) n).1 = false := by
          simpa using hr
        simp [hrf]

/-- C6 (counterexample): the claim says the retry delay is slept only
between consecutive attempts and never after the last one. With
`retries = 1` and a failing transport, the code makes one attempt and
sleeps once — after that last (and only) attempt. -/
theorem sleep_after_last_failed_attempt :
    (tcp_check_with_retries (fun _ => false) 1).2.1 = 1 ∧
      (tcp_check_with_retries (fun _ => false) 1).2.2 = 1 ∧
      ¬((tcp_check_with_retries (fun _ => false) 1).2.2 ≤
        (tcp_check_with_retries (fun _ => false) 1).2.1 - 1) := by
  decide

/-- C6 (amended): `tcp_check_with_retries` makes at most `max(1, retries)`
probe attempts, returns true immediately on the first successful attempt
(all earlier attempts failed), returns false only when every attempt
failed (having used all `max(1, retries)` attempts), and sleeps the retry
delay after every FAILED attempt: one sleep fewer than attempts on
success, but also a sleep after the last attempt when every attempt
fails. -/
theorem tcp_check_with_retries_spec (outcomes : Nat → Bool) (retries : Int) :
    1 ≤ (tcp_check_with_retries outcomes retries).2.1 ∧
      (tcp_check_with_retries outcomes retries).2.1 ≤ (max 1 retries).toNat ∧
      ((tcp_check_with_retries outcomes retries).1 = true ↔
        ∃ i, i < (max 1 retries).toNat ∧ outcomes i = true) ∧
      ((tcp_check_with_retries outcomes retries).1 = true →
        outcomes ((tcp_check_with_retries outcomes retries).2.1 - 1) = true ∧
          ∀ j, j < (tcp_check_with_retries outcomes retries).2.1 - 1 →
            outcomes j = false) ∧
      ((tcp_check_with_retries outcomes retries).1 = false →
        (tcp_check_with_retries outcomes retries).2.1 = (max 1 retries).toNat ∧
          ∀ j, j < (max 1 retries).toNat → outcomes j = false) ∧
      (tcp_check_with_retries outcomes retries).2.2 =
        (if (tcp_check_with_retries outcomes retries).1 then
          (tcp_check_with_retries outcomes retries).2.1 - 1
         else (tcp_check_with_retries outcomes retries).2.1) := by
  have hn : 1 ≤ (max 1 retries).toNat := by
    have : (1 : Int) ≤ max 1 retries := le_max_left 1 retries
    omega
  unfold tcp_check_with_retries
  exact ⟨checkLoop_attempts_pos _ outcomes hn, checkLoop_attempts_le _ _,
    checkLoop_true_iff _ _, checkLoop_first_success _ _, checkLoop_false _ _,
    checkLoop_sleeps _ _⟩

/-- Witness for `tcp_check_with_retries_spec`: transport failing twice
then succeeding, `retries = 4`: the probe reports success, and the
success-iff-some-attempt-succeeds equivalence is discharged at attempt
index 2. -/
theorem tcp_check_with_retries_spec_witness :
    (tcp_check_with_retries (fun i => decide (i = 2)) 4).1 = true ∧
      (tcp_check_with_retries (fun i => decide (i = 2)) 4).2.1 = 3 ∧
      (tcp_check_with_retries (fun i => decide (i = 2)) 4).2.2 = 2 := by
  have h := (tcp_check_with_retries_spec (fun i => decide (i = 2)) 4).2.2.1
  exact ⟨h.mpr ⟨2, by decide, by decide⟩, by decide, by decide⟩

/-! ## C7: end-of-cycle key reconciliation -/

/-- The key set of the state mapping. -/
def keysOf (m : List (String × MRecord)) : List String := m.map Prod.fst

/-- Inserting a binding adds (at most) its key to the key set. -/
theorem mem_keysOf_insertS (m : List (String × MRecord)) (k : String)
    (v : MRecord) (a : String) :
    a ∈ keysOf (insertS m k v) ↔ a = k ∨ a ∈ keysOf m := by
  induction m with
  | nil => simp [insertS, keysOf]
  | cons p t ih =>
    obtain ⟨k', v'⟩ := p
    by_cases h : k' = k
    · subst h
      simp [insertS, keysOf]
    · simp only [insertS, if_neg h, keysOf, List.map_cons, List.mem_cons]
      simp only [keysOf] at ih
      rw [ih]
      tauto

/-- After the per-host loop, the keys are the prior keys plus the keys of
the processed hosts. -/
theorem mem_keysOf_processHosts (cfg : Config) (samples : String → Bool)
    (now : Nat) (hs : List Target) :
    ∀ (m : List (String × MRecord)) (ns : List Notif) (a : String),
      a ∈ keysOf (processHosts cfg samples now hs (m, ns)).1 ↔
        a ∈ keysOf m ∨ a ∈ hs.map hostKey := by
  induction hs with
  | nil => intro m ns a; simp [processHosts]
  | cons h t ih =>
    intro m ns a
    simp only [processHosts]
    rw [ih]
    rw [mem_keysOf_insertS]
    simp only [List.map_cons, List.mem_cons]
    tauto

/-- C7: after one full cycle, the persisted state mapping's key set equals
exactly the set of "host:port" keys derived from the loaded (enabled)
targets — every stale key is deleted and every processed target has a
record. -/
theorem cycle_keys_eq_current_keys (cfg : Config) (samples : String → Bool)
    (now : Nat) (hosts : List Target) (statuses : List (String × MRecord))
    (a : String) :
    a ∈ keysOf (runCycle cfg samples now hosts statuses).1 ↔
      a ∈ hosts.map hostKey := by
  unfold runCycle
  constructor
  · intro hmem
    rcases List.mem_map.mp hmem with ⟨p, hp, rfl⟩
    have h2 := (List.mem_filter.mp hp).2
    simpa using of_decide_eq_true h2
  · intro ha
    have hk : a ∈ keysOf (processHosts cfg samples now hosts (statuses, [])).1 :=
      (mem_keysOf_processHosts cfg samples now hosts statuses [] a).mpr
        (Or.inr ha)
    rcases List.mem_map.mp hk with ⟨p, hp, rfl⟩
    exact List.mem_map.mpr
      ⟨p, List.mem_filter.mpr ⟨hp, decide_eq_true (by simpa using ha)⟩, rfl⟩

/-! ## C8: target-list entry normalisation -/

/-- Whether a value is a Python `str` (`isinstance(enabled, str)`). -/
def pyIsStr : PyVal → Bool
  | .str _ => true
  | _ => false

/-- Unfolds the enabled test of monitor2 on a one-field item. -/
theorem enabledCheck2_single (v : PyVal) :
    enabledCheck2 [("enabled", v)] =
      !(pyEq v (.bool false) || pyEq v (.str "false") ||
        pyEq v (.str "no") || pyEq v (.int 0)) := by
  simp [enabledCheck2, dget]

/-- C8 (counterexample): the claim says the enabled flag is false exactly
for boolean false and the strings "false", "0", "no", identically in both
variants. For the string "0", monitor.py disables the target but
monitor2.py keeps it enabled (Python `"0" in (False, "false", "no", 0)`
is False: a string never equals the int 0, and the tuple lacks the
string "0"). -/
theorem enabled_variants_differ_on_zero_string :
    enabledCheck1 [("enabled", PyVal.str "0")] = false ∧
      enabledCheck2 [("enabled", PyVal.str "0")] = true := by
  exact ⟨rfl, rfl⟩

/-- C8 (amended): loading normalizes a target-list entry as follows: a
missing name defaults to "{host}:{port}" (interpolating the raw field
values), a missing port defaults to 3389; in monitor.py the enabled flag
is false for a string exactly when its lowercase form is "false", "0" or
"no", and for a non-string exactly when the value is falsy (False, 0,
None); in monitor2.py it is false exactly for the values False, 0,
"false", "no" (case-sensitive, the string "0" counts as enabled); a
missing enabled key means enabled in both. The two variants therefore do
NOT implement the same parsing. -/
theorem load_hosts_normalization (d1 d2 : List (String × PyVal)) (h : String)
    (p : Int) (v : PyVal) (s : String)
    (hname : dget d1 "name" = Option.none)
    (hhost : dget d1 "host" = some (PyVal.str h))
    (hport : dget d1 "port" = some (PyVal.int p))
    (hport2 : dget d2 "port" = Option.none) :
    nameField d1 = h ++ ":" ++ toString p ∧
      portField d2 = some 3389 ∧
      (enabledCheck1 [("enabled", PyVal.str s)] = false ↔
        pyLower s = "false" ∨ pyLower s = "0" ∨ pyLower s = "no") ∧
      (pyIsStr v = false →
        enabledCheck1 [("enabled", v)] = pyTruthy v) ∧
      (enabledCheck2 [("enabled", v)] = false ↔
        v = PyVal.bool false ∨ v = PyVal.int 0 ∨
          v = PyVal.str "false" ∨ v = PyVal.str "no") ∧
      enabledCheck1 [] = true ∧ enabledCheck2 [] = true := by
  refine ⟨?_, ?_, ?_, ?_, ?_, rfl, rfl⟩
  · simp [nameField, hname, hhost, hport, pyTruthy, pyStr]
  · simp [portField, hport2, pyTruthy, pyToInt]
  · simp only [enabledCheck1, dget, if_pos rfl, Option.getD_some]
    constructor
    · intro hfalse
      by_contra hc
      push_neg at hc
      simp [hc.1, hc.2.1, hc.2.2] at hfalse
    · intro hc
      rcases hc with hc | hc | hc <;> simp [hc]
  · cases v <;> simp [enabledCheck1, dget, pyIsStr, pyTruthy]
  · rw [enabledCheck2_single]
    cases v with
    | bool b => cases b <;> simp [pyEq]
    | int n => simp [pyEq]
    | str t =>
      simp [pyEq]
      tauto
    | none => simp [pyEq]

/-- Witness for `load_hosts_normalization`: an entry with host "srv1" and
port 22 but no name gets name "srv1:22"; an entry without a port gets
port 3389; the string "No" disables in monitor.py; the int 1 is enabled;
the string "0" stays enabled in monitor2.py. -/
theorem load_hosts_normalization_witness :
    nameField [("host", PyVal.str "srv1"), ("port", PyVal.int 22)] = "srv1:22" ∧
      portField [("host", PyVal.str "srv1")] = some 3389 ∧
      enabledCheck1 [("enabled", PyVal.str "No")] = false ∧
      enabledCheck2 [("enabled", PyVal.str "0")] = true := by
  have hmain := load_hosts_normalization
    [("host", PyVal.str "srv1"), ("port", PyVal.int 22)]
    [("host", PyVal.str "srv1")] "srv1" 22 (PyVal.str "0") "No"
    (by decide) (by decide) (by decide) (by decide)
  refine ⟨hmain.1, hmain.2.1, ?_, ?_⟩
  · exact hmain.2.2.1.mpr (Or.inr (Or.inr (by decide)))
  · by_contra hc
    have := hmain.2.2.2.2.1.mp (by simpa using hc)
    simp at this

/-! ## C9: load failure handling -/

/-- C9 (counterexample): the claim says a malformed target list yields an
empty target list and the cycle continues. In monitor.py the
`yaml.safe_load` call of `load_hosts` is not wrapped in try/except, so a
parse failure propagates and aborts the cycle instead of returning `[]`. -/
theorem corrupt_hosts_aborts_monitor1 :
    load_hosts1 true FileState.corrupt ≠ Except.ok ([] : List Target) := by
  intro hc
  exact Except.noConfusion hc

/-- C9 (amended): a persisted state file that is absent or unparseable
yields an empty mapping (with a logged warning in the corrupt case) in
both variants; a missing target list yields an empty target list in both
variants; a malformed target list yields an empty target list in
monitor2.py, but in monitor.py the parse error propagates out of
`load_hosts` and aborts the cycle. -/
theorem load_failure_handling (m : List (String × MRecord)) :
    load_statuses FileState.absent = ([], false) ∧
      load_statuses FileState.corrupt = ([], true) ∧
      load_statuses (FileState.parsed m) = (m, false) ∧
      load_hosts1 true FileState.absent = Except.ok [] ∧
      load_hosts2 true FileState.absent = [] ∧
      load_hosts2 true FileState.corrupt = [] ∧
      load_hosts1 true FileState.corrupt = Except.error () := by
  exact ⟨rfl, rfl, rfl, rfl, rfl, rfl, rfl⟩

end Monitor
